import Mathlib

/-!
# Verification of the Azure GigWarm exporter's batch-upload core

Shallow embedding of the batch retry / concurrent dispatch / export
orchestration code of `exporter/azuregigwarmexporter` (files
`tracesexporter.go`, `config.go`, `internal/cgo/geneva_ffi.go`, and the
logs exporter variant of `uploadBatchWithRetry`).

Modelling conventions:
* `time.Duration` values and the `float64` backoff arithmetic are modelled
  over exact rationals `ℚ` (nanoseconds); Go's `float64` rounding is not
  modelled, the formulas are taken exactly as written in the source.
* The jitter randomness source
  `math.Float64frombits(uint64(time.Now().UnixNano()))` is modelled as a
  rational parameter `rand`; for every wall-clock nanosecond timestamp
  between 1970 and the year 2116 the bit reinterpretation lies in `[0, 1)`,
  so theorems assume `0 ≤ rand ≤ 1` where a bound is needed.
* The cancellation context is modelled by two boolean streams: `cancelPre k`
  is the result of the non-blocking `ctx.Done()` poll before attempt `k`,
  and `cancelSleep k` tells whether the `select` on
  `ctx.Done() / time.After(backoff)` after attempt `k` is won by
  cancellation.
* The FFI uploader is modelled by `upload : ℕ → Option ε`: `upload k` is
  the outcome of the `k`-th upload attempt for this batch (`none` =
  success, `some e` = failure with cause `e`).
* Side effects (upload attempts, sleeps, telemetry counter increments) are
  collected in an event trace so that per-path effect claims are statable.
-/

namespace GigWarm

/-- Observable side effects of one run of `uploadBatchWithRetry`:
upload attempts, inter-attempt sleeps (with the backoff used and whether
the sleep completed or was interrupted by cancellation), and the two batch
telemetry counters (`recordBatchExported` / `recordBatchExportError`) with
the attribute values the Go code attaches (`retry_enabled`, optional
`attempts`, and the `error` reason string). -/
inductive Ev (ε : Type) where
  | uploadAttempt (attempt : ℕ)
  | sleep (backoff : ℚ) (completed : Bool)
  | batchExported (retryEnabled : Bool) (attempts : Option ℕ)
  | batchExportError (reason : String) (retryEnabled : Bool) (attempts : Option ℕ)
  deriving DecidableEq

/-- Result of `uploadBatchWithRetry` for one batch, classifying the Go
return value: `nil` (success), `ctx.Err()` (cancelled), the retry-disabled
wrap `failed to upload spans batch %d to Geneva Warm: %w`, or the
exhaustion wrap `failed to upload spans batch %d after %d attempts: %w`. -/
inductive BatchResult (ε : Type) where
  | success
  | cancelled
  | uploadFailed (index : ℕ) (cause : ε)
  | maxRetriesExceeded (index : ℕ) (attempts : ℕ) (cause : ε)
  deriving DecidableEq

/-- Value of the `error` attribute attached by `recordBatchExportError`
on the retry-exhaustion path of the traces exporter. -/
def errorReasonMaxRetries : String := "max_retries_exceeded"

/-- Value of the `error` attribute attached by `recordBatchExportError`
on the retry-disabled failure path of the traces exporter. -/
def errorReasonUploadFailed : String := "upload_failed"

/-- From `config.go`, `BatchRetryConfig`: retry configuration exactly as the Go
struct stores it (interval fields are free-form duration strings, parsed at
use time; `maxRetries` is a Go `int`, so it may be negative). -/
structure BatchRetryConfig where
  enabled : Bool
  maxRetries : Int
  initialInterval : String
  maxInterval : String
  multiplier : ℚ
  deriving DecidableEq

/-- From `config.go`, `NewDefaultBatchRetryConfig`. -/
def NewDefaultBatchRetryConfig : BatchRetryConfig :=
  { enabled := true
    maxRetries := 3
    initialInterval := "100ms"
    maxInterval := "5s"
    multiplier := 2 }

/-- From `config.go`, `(*BatchRetryConfig).GetInitialInterval`.  Go's
`time.ParseDuration` is standard-library code outside this repository, so
it is passed in as an oracle `parseDur` (`none` = parse error).  Durations
are nanoseconds.  `100 * time.Millisecond = 100000000` ns. -/
def GetInitialInterval (parseDur : String → Option ℚ) (c : BatchRetryConfig) : ℚ :=
  if c.initialInterval = "" then 100000000
  else
    match parseDur c.initialInterval with
    | none => 100000000
    | some d => d

/-- From `config.go`, `(*BatchRetryConfig).GetMaxInterval`.
`5 * time.Second = 5000000000` ns. -/
def GetMaxInterval (parseDur : String → Option ℚ) (c : BatchRetryConfig) : ℚ :=
  if c.maxInterval = "" then 5000000000
  else
    match parseDur c.maxInterval with
    | none => 5000000000
    | some d => d

/-- From `tracesexporter.go` lines 287-290: `multiplier := cfg.Multiplier;
if multiplier <= 0 { multiplier = 2.0 }`. -/
def effectiveMultiplier (c : BatchRetryConfig) : ℚ :=
  if c.multiplier ≤ 0 then 2 else c.multiplier

/-- From `tracesexporter.go` lines 280-283: `maxRetries := cfg.MaxRetries;
if maxRetries < 0 { maxRetries = 3 }`.  The defaulted value is
non-negative, so we read it off as a natural number. -/
def effectiveMaxRetries (c : BatchRetryConfig) : ℕ :=
  (if c.maxRetries < 0 then 3 else c.maxRetries).toNat

/-- From `tracesexporter.go` lines 341-348: the backoff update after a completed
sleep.  `grown := float64(backoff) * multiplier`, clamped to `maxInterval`
from above, then jitter `clamped * 0.1 * (2*rand - 1)` is added, where
`rand` models the `Float64frombits` value. -/
def nextBackoff (backoff mult maxI rand : ℚ) : ℚ :=
  let grown := backoff * mult
  let clamped := if maxI < grown then maxI else grown
  let jitter := clamped * (1 / 10) * (2 * rand - 1)
  clamped + jitter

/-- The retry loop of `tracesexporter.go` lines 295-363 (`for attempt :=
0; attempt <= maxRetries; attempt++`), with `remaining = maxRetries -
attempt` as the structural recursion measure.  Each iteration: poll
cancellation; attempt the upload; on success record the
`recordBatchExported` event; on failure either exhaust (recording
`recordBatchExportError` with `attempts = maxRetries+1`), or sleep
(interruptible by cancellation) and recurse with the jittered exponential
backoff. -/
def retryLoop (upload : ℕ → Option ε) (cancelPre cancelSleep : ℕ → Bool)
    (rand : ℕ → ℚ) (index maxRetries : ℕ) (mult maxI : ℚ) :
    ℕ → ℕ → ℚ → BatchResult ε × List (Ev ε)
  | remaining, attempt, backoff =>
    if cancelPre attempt then (.cancelled, [])
    else
      match upload attempt with
      | none =>
          (.success, [.uploadAttempt attempt, .batchExported true (some (attempt + 1))])
      | some e =>
          match remaining with
          | 0 =>
              (.maxRetriesExceeded index (maxRetries + 1) e,
                [.uploadAttempt attempt,
                 .batchExportError errorReasonMaxRetries true (some (maxRetries + 1))])
          | rem + 1 =>
              if cancelSleep attempt then
                (.cancelled, [.uploadAttempt attempt, .sleep backoff false])
              else
                let rest := retryLoop upload cancelPre cancelSleep rand index maxRetries
                  mult maxI rem (attempt + 1) (nextBackoff backoff mult maxI (rand attempt))
                (rest.1, .uploadAttempt attempt :: .sleep backoff true :: rest.2)

/-- From `tracesexporter.go` lines 257-364, `(*tracesExporter).uploadBatchWithRetry`:
retry-disabled single attempt (with its two telemetry paths), otherwise the
retry loop starting at attempt 0 with the parsed initial interval. -/
def uploadBatchWithRetry (parseDur : String → Option ℚ) (c : BatchRetryConfig)
    (upload : ℕ → Option ε) (cancelPre cancelSleep : ℕ → Bool) (rand : ℕ → ℚ)
    (index : ℕ) : BatchResult ε × List (Ev ε) :=
  if c.enabled = false then
    match upload 0 with
    | some e =>
        (.uploadFailed index e,
          [.uploadAttempt 0, .batchExportError errorReasonUploadFailed false none])
    | none => (.success, [.uploadAttempt 0, .batchExported false none])
  else
    retryLoop upload cancelPre cancelSleep rand index (effectiveMaxRetries c)
      (effectiveMultiplier c) (GetMaxInterval parseDur c)
      (effectiveMaxRetries c) 0 (GetInitialInterval parseDur c)

/-- The logs-exporter retry loop (logs exporter source, `(*logsExporter)
.uploadBatchWithRetry`): identical control flow to the traces loop but the
logs exporter records no batch telemetry at all. -/
def logsRetryLoop (upload : ℕ → Option ε) (cancelPre cancelSleep : ℕ → Bool)
    (rand : ℕ → ℚ) (index maxRetries : ℕ) (mult maxI : ℚ) :
    ℕ → ℕ → ℚ → BatchResult ε × List (Ev ε)
  | remaining, attempt, backoff =>
    if cancelPre attempt then (.cancelled, [])
    else
      match upload attempt with
      | none => (.success, [.uploadAttempt attempt])
      | some e =>
          match remaining with
          | 0 =>
              (.maxRetriesExceeded index (maxRetries + 1) e, [.uploadAttempt attempt])
          | rem + 1 =>
              if cancelSleep attempt then
                (.cancelled, [.uploadAttempt attempt, .sleep backoff false])
              else
                let rest := logsRetryLoop upload cancelPre cancelSleep rand index maxRetries
                  mult maxI rem (attempt + 1) (nextBackoff backoff mult maxI (rand attempt))
                (rest.1, .uploadAttempt attempt :: .sleep backoff true :: rest.2)

/-- From `(*logsExporter).uploadBatchWithRetry`: as the traces version, but with
no telemetry events on any path. -/
def logsUploadBatchWithRetry (parseDur : String → Option ℚ) (c : BatchRetryConfig)
    (upload : ℕ → Option ε) (cancelPre cancelSleep : ℕ → Bool) (rand : ℕ → ℚ)
    (index : ℕ) : BatchResult ε × List (Ev ε) :=
  if c.enabled = false then
    match upload 0 with
    | some e => (.uploadFailed index e, [.uploadAttempt 0])
    | none => (.success, [.uploadAttempt 0])
  else
    logsRetryLoop upload cancelPre cancelSleep rand index (effectiveMaxRetries c)
      (effectiveMultiplier c) (GetMaxInterval parseDur c)
      (effectiveMaxRetries c) 0 (GetInitialInterval parseDur c)

/-- Number of upload attempts recorded in a trace. -/
def countUploads (tr : List (Ev ε)) : ℕ :=
  tr.countP fun ev =>
    match ev with
    | .uploadAttempt _ => true
    | _ => false

/-- Number of sleeps recorded in a trace (completed or interrupted). -/
def countSleeps (tr : List (Ev ε)) : ℕ :=
  tr.countP fun ev =>
    match ev with
    | .sleep _ _ => true
    | _ => false

/-- Number of batch telemetry events (`recordBatchExported` or
`recordBatchExportError`) recorded in a trace. -/
def countTelemetry (tr : List (Ev ε)) : ℕ :=
  tr.countP fun ev =>
    match ev with
    | .batchExported _ _ => true
    | .batchExportError _ _ _ => true
    | _ => false

/-- The un-jittered backoff component named by the spec: start at
`initialInterval` and step by `b ↦ min (b * multiplier) maxInterval`. -/
def unjittered (initial mult maxI : ℚ) : ℕ → ℚ
  | 0 => initial
  | n + 1 => min (unjittered initial mult maxI n * mult) maxI

/-- The per-goroutine payload of `uploadBatchesWithRetry`
(`tracesexporter.go` lines 201-206): a batch contributes to the result
channel only if its `uploadBatchWithRetry` returned a non-nil error. -/
def batchError (res : BatchResult ε) : Option (BatchResult ε) :=
  match res with
  | .success => none
  | r => some r

/-- The multiset of failures the dispatcher's channel holds after the
`wg.Wait()` barrier (`tracesexporter.go` lines 199-216): one `(index, err)`
pair per batch whose per-batch error function `berr` is non-`none`, in
batch-index order.  The actual channel order is an arbitrary permutation
of this list (the goroutines finish in any order); theorems quantify over
that permutation. -/
def collectFailures (berr : ℕ → Option ε) (n : ℕ) : List (ℕ × ε) :=
  (List.range n).filterMap fun i => (berr i).map fun e => (i, e)

/-- The aggregation step of `uploadBatchesWithRetry` (`tracesexporter.go`
lines 219-228): if the collected failure list is non-empty return its first
element's error, else `nil`. -/
def dispatchFirstError (collected : List (ℕ × ε)) : Option ε :=
  match collected with
  | [] => none
  | f :: _ => some f.2

/-- Encoding-step error classification of `geneva_ffi.go`:
`"geneva client is closed"`, `"empty span data"` / `"empty log data"`, or
an error propagated from the Rust FFI call. -/
inductive EncodeErr where
  | clientClosed
  | emptyData
  | ffiFailed (code : ℕ)
  deriving DecidableEq

/-- From `geneva_ffi.go` lines 293-318, `(*GenevaClient).EncodeAndCompressSpans`:
nil-handle check, then zero-length check, then the FFI call (modelled as an
oracle `ffi` returning a batches handle id or an error). -/
def EncodeAndCompressSpans (handle : Option ℕ) (dataLen : ℕ)
    (ffi : Except EncodeErr ℕ) : Except EncodeErr ℕ :=
  match handle with
  | none => .error .clientClosed
  | some _ => if dataLen = 0 then .error .emptyData else ffi

/-- From `geneva_ffi.go` lines 265-290, `(*GenevaClient).EncodeAndCompressLogs`:
same guard structure as the spans variant. -/
def EncodeAndCompressLogs (handle : Option ℕ) (dataLen : ℕ)
    (ffi : Except EncodeErr ℕ) : Except EncodeErr ℕ :=
  match handle with
  | none => .error .clientClosed
  | some _ => if dataLen = 0 then .error .emptyData else ffi

/-- State of an `*EncodedBatches` value as seen by Go: the outer `Option`
is the receiver pointer (`none` = nil receiver), the inner `Option` is the
`handle` field (`none` = nil / already freed handle). -/
abbrev BatchesState : Type := Option (Option ℕ)

/-- From `geneva_ffi.go` lines 257-262, `(*EncodedBatches).Close`: free the
handle only when both the receiver and the handle are non-nil, and nil the
handle out.  The boolean records whether `geneva_batches_free` was called. -/
def closeBatches : BatchesState → BatchesState × Bool
  | none => (none, false)
  | some none => (some none, false)
  | some (some _) => (some none, true)

/-- From `geneva_ffi.go` lines 249-254, `(*EncodedBatches).Len`: 0 on a nil
receiver or nil handle, else the FFI length (oracle `ffiLen`). -/
def lenBatches (ffiLen : ℕ → ℕ) : BatchesState → ℕ
  | none => 0
  | some none => 0
  | some (some h) => ffiLen h

/-- Observable outcome of one `pushTraces` call (`tracesexporter.go` lines
111-186): whether it returned `nil`, whether a batch set was allocated
(encode succeeded), whether it was released (`defer batches.Close()`), and
whether the dispatcher (`uploadBatchesWithRetry`) was invoked. -/
structure PushOutcome where
  success : Bool
  allocated : Bool
  closed : Bool
  dispatched : Bool
  deriving DecidableEq

/-- From `tracesexporter.go` lines 111-186, `(*tracesExporter).pushTraces`,
reduced to its control flow: marshal (oracle giving the payload byte
length or an error), encode via `EncodeAndCompressSpans`, then — with the
batch set now allocated and `defer`-released on every later path —
dispatch (oracle `dispatchErr`, `none` = all batches uploaded). -/
def pushTraces (marshal : Except Unit ℕ) (handle : Option ℕ)
    (ffi : Except EncodeErr ℕ) (dispatchErr : Option (BatchResult ℕ)) : PushOutcome :=
  match marshal with
  | .error _ => ⟨false, false, false, false⟩
  | .ok dataLen =>
      match EncodeAndCompressSpans handle dataLen ffi with
      | .error _ => ⟨false, false, false, false⟩
      | .ok _ =>
          match dispatchErr with
          | some _ => ⟨false, true, true, true⟩
          | none => ⟨true, true, true, true⟩

/-! ## Trace-counting simp lemmas -/

@[simp] theorem countUploads_nil : countUploads ([] : List (Ev ε)) = 0 := rfl

@[simp] theorem countUploads_cons_upload (a : ℕ) (tr : List (Ev ε)) :
    countUploads (.uploadAttempt a :: tr) = countUploads tr + 1 := by
  simp [countUploads, List.countP_cons]

@[simp] theorem countUploads_cons_sleep (d : ℚ) (c : Bool) (tr : List (Ev ε)) :
    countUploads (.sleep d c :: tr) = countUploads tr := by
  simp [countUploads, List.countP_cons]

@[simp] theorem countUploads_cons_exported (re : Bool) (a : Option ℕ) (tr : List (Ev ε)) :
    countUploads (.batchExported re a :: tr) = countUploads tr := by
  simp [countUploads, List.countP_cons]

@[simp] theorem countUploads_cons_exportError (s : String) (re : Bool) (a : Option ℕ)
    (tr : List (Ev ε)) :
    countUploads (.batchExportError s re a :: tr) = countUploads tr := by
  simp [countUploads, List.countP_cons]

@[simp] theorem countSleeps_nil : countSleeps ([] : List (Ev ε)) = 0 := rfl

@[simp] theorem countSleeps_cons_upload (a : ℕ) (tr : List (Ev ε)) :
    countSleeps (.uploadAttempt a :: tr) = countSleeps tr := by
  simp [countSleeps, List.countP_cons]

@[simp] theorem countSleeps_cons_sleep (d : ℚ) (c : Bool) (tr : List (Ev ε)) :
    countSleeps (.sleep d c :: tr) = countSleeps tr + 1 := by
  simp [countSleeps, List.countP_cons]

@[simp] theorem countSleeps_cons_exported (re : Bool) (a : Option ℕ) (tr : List (Ev ε)) :
    countSleeps (.batchExported re a :: tr) = countSleeps tr := by
  simp [countSleeps, List.countP_cons]

@[simp] theorem countSleeps_cons_exportError (s : String) (re : Bool) (a : Option ℕ)
    (tr : List (Ev ε)) :
    countSleeps (.batchExportError s re a :: tr) = countSleeps tr := by
  simp [countSleeps, List.countP_cons]

@[simp] theorem countTelemetry_nil : countTelemetry ([] : List (Ev ε)) = 0 := rfl

@[simp] theorem countTelemetry_cons_upload (a : ℕ) (tr : List (Ev ε)) :
    countTelemetry (.uploadAttempt a :: tr) = countTelemetry tr := by
  simp [countTelemetry, List.countP_cons]

@[simp] theorem countTelemetry_cons_sleep (d : ℚ) (c : Bool) (tr : List (Ev ε)) :
    countTelemetry (.sleep d c :: tr) = countTelemetry tr := by
  simp [countTelemetry, List.countP_cons]

@[simp] theorem countTelemetry_cons_exported (re : Bool) (a : Option ℕ) (tr : List (Ev ε)) :
    countTelemetry (.batchExported re a :: tr) = countTelemetry tr + 1 := by
  simp [countTelemetry, List.countP_cons]

@[simp] theorem countTelemetry_cons_exportError (s : String) (re : Bool) (a : Option ℕ)
    (tr : List (Ev ε)) :
    countTelemetry (.batchExportError s re a :: tr) = countTelemetry tr + 1 := by
  simp [countTelemetry, List.countP_cons]

/-! ## Helper lemmas about the retry loop -/

/-- When every attempt of the uploader fails and cancellation never fires,
the loop runs to exhaustion: the result carries `maxRetries + 1` as the
attempt count and the error of the final attempt, the trace holds exactly
`remaining + 1` upload attempts, `remaining` sleeps (none after the last
attempt) and exactly one telemetry event. -/
theorem retryLoop_always_fails (errAt : ℕ → ε) (cancelPre cancelSleep : ℕ → Bool)
    (rand : ℕ → ℚ) (index mr : ℕ) (mult maxI : ℚ)
    (hcp : ∀ k, cancelPre k = false) (hcs : ∀ k, cancelSleep k = false) :
    ∀ rem attempt b,
      (retryLoop (fun k => some (errAt k)) cancelPre cancelSleep rand index mr mult maxI
          rem attempt b).1
        = .maxRetriesExceeded index (mr + 1) (errAt (attempt + rem)) ∧
      countUploads (retryLoop (fun k => some (errAt k)) cancelPre cancelSleep rand index mr
          mult maxI rem attempt b).2 = rem + 1 ∧
      countSleeps (retryLoop (fun k => some (errAt k)) cancelPre cancelSleep rand index mr
          mult maxI rem attempt b).2 = rem ∧
      countTelemetry (retryLoop (fun k => some (errAt k)) cancelPre cancelSleep rand index mr
          mult maxI rem attempt b).2 = 1 := by
  intro rem
  induction rem with
  | zero =>
      intro attempt b
      rw [retryLoop]
      simp [hcp]
  | succ r ih =>
      intro attempt b
      obtain ⟨h1, h2, h3, h4⟩ := ih (attempt + 1) (nextBackoff b mult maxI (rand attempt))
      have heq : attempt + 1 + r = attempt + (r + 1) := by omega
      rw [heq] at h1
      rw [retryLoop]
      simp [hcp, hcs, h1, h2, h3, h4]

/-- Over any uploader and cancellation behaviour, the loop issues at most
`remaining + 1` upload attempts. -/
theorem retryLoop_upload_bound (upload : ℕ → Option ε) (cancelPre cancelSleep : ℕ → Bool)
    (rand : ℕ → ℚ) (index mr : ℕ) (mult maxI : ℚ) :
    ∀ rem attempt b,
      countUploads (retryLoop upload cancelPre cancelSleep rand index mr mult maxI
          rem attempt b).2 ≤ rem + 1 := by
  intro rem
  induction rem with
  | zero =>
      intro attempt b
      rw [retryLoop]
      by_cases hcp : cancelPre attempt
      · simp [hcp]
      · rcases hu : upload attempt with _ | e <;> simp [hcp, hu]
  | succ r ih =>
      intro attempt b
      rw [retryLoop]
      by_cases hcp : cancelPre attempt
      · simp [hcp]
      · rcases hu : upload attempt with _ | e
        · simp [hcp, hu]
        · by_cases hcs : cancelSleep attempt
          · simp [hcp, hu, hcs]
          · have h := ih (attempt + 1) (nextBackoff b mult maxI (rand attempt))
            simp [hcp, hu, hcs]
            omega

/-- The traces retry loop records exactly one batch telemetry event unless
it returns `cancelled`, in which case it records none. -/
theorem retryLoop_telemetry (upload : ℕ → Option ε) (cancelPre cancelSleep : ℕ → Bool)
    (rand : ℕ → ℚ) (index mr : ℕ) (mult maxI : ℚ) :
    ∀ rem attempt b,
      ((retryLoop upload cancelPre cancelSleep rand index mr mult maxI rem attempt b).1
          = .cancelled →
        countTelemetry (retryLoop upload cancelPre cancelSleep rand index mr mult maxI
          rem attempt b).2 = 0) ∧
      ((retryLoop upload cancelPre cancelSleep rand index mr mult maxI rem attempt b).1
          ≠ .cancelled →
        countTelemetry (retryLoop upload cancelPre cancelSleep rand index mr mult maxI
          rem attempt b).2 = 1) := by
  intro rem
  induction rem with
  | zero =>
      intro attempt b
      rw [retryLoop]
      by_cases hcp : cancelPre attempt
      · simp [hcp]
      · rcases hu : upload attempt with _ | e <;> simp [hcp, hu]
  | succ r ih =>
      intro attempt b
      rw [retryLoop]
      by_cases hcp : cancelPre attempt
      · simp [hcp]
      · rcases hu : upload attempt with _ | e
        · simp [hcp, hu]
        · by_cases hcs : cancelSleep attempt
          · simp [hcp, hu, hcs]
          · have h := ih (attempt + 1) (nextBackoff b mult maxI (rand attempt))
            simpa [hcp, hu, hcs] using h

/-- The logs retry loop never records batch telemetry. -/
theorem logsRetryLoop_telemetry (upload : ℕ → Option ε) (cancelPre cancelSleep : ℕ → Bool)
    (rand : ℕ → ℚ) (index mr : ℕ) (mult maxI : ℚ) :
    ∀ rem attempt b,
      countTelemetry (logsRetryLoop upload cancelPre cancelSleep rand index mr mult maxI
        rem attempt b).2 = 0 := by
  intro rem
  induction rem with
  | zero =>
      intro attempt b
      rw [logsRetryLoop]
      by_cases hcp : cancelPre attempt
      · simp [hcp]
      · rcases hu : upload attempt with _ | e <;> simp [hcp, hu]
  | succ r ih =>
      intro attempt b
      rw [logsRetryLoop]
      by_cases hcp : cancelPre attempt
      · simp [hcp]
      · rcases hu : upload attempt with _ | e
        · simp [hcp, hu]
        · by_cases hcs : cancelSleep attempt
          · simp [hcp, hu, hcs]
          · have h := ih (attempt + 1) (nextBackoff b mult maxI (rand attempt))
            simpa [hcp, hu, hcs] using h

/-! ## Numeric lemmas about the backoff computation -/

/-- The clamp written in the Go source (`if backoff > maxInterval { backoff
= maxInterval }`) is `min`. -/
theorem clamp_eq_min (g maxI : ℚ) : (if maxI < g then maxI else g) = min g maxI := by
  rcases le_or_lt g maxI with h | h
  · rw [if_neg (not_lt.mpr h), min_eq_left h]
  · rw [if_pos h, min_eq_right h.le]

/-- With a jitter source in `[0, 1]`, one backoff update lands in the band
`[0.9 · x, 1.1 · x]` around the clamped un-jittered value
`x = min (backoff * mult) maxI`. -/
theorem nextBackoff_band (b mult maxI r : ℚ) (hb : 0 ≤ b) (hm : 0 ≤ mult) (hI : 0 ≤ maxI)
    (hr0 : 0 ≤ r) (hr1 : r ≤ 1) :
    9 / 10 * min (b * mult) maxI ≤ nextBackoff b mult maxI r ∧
      nextBackoff b mult maxI r ≤ 11 / 10 * min (b * mult) maxI := by
  have hx0 : 0 ≤ min (b * mult) maxI := le_min (mul_nonneg hb hm) hI
  simp only [nextBackoff]
  rw [clamp_eq_min]
  constructor
  · nlinarith [mul_nonneg hx0 hr0]
  · nlinarith [mul_nonneg hx0 (sub_nonneg.mpr hr1)]

/-- The un-jittered backoff sequence stays in `[0, maxI]` and is monotone
non-decreasing, provided the initial interval does not exceed the cap and
the multiplier is at least 1. -/
theorem unjittered_bounds_mono (initial mult maxI : ℚ) (hi0 : 0 ≤ initial)
    (him : initial ≤ maxI) (hm : 1 ≤ mult) :
    ∀ n, (0 ≤ unjittered initial mult maxI n ∧ unjittered initial mult maxI n ≤ maxI) ∧
      unjittered initial mult maxI n ≤ unjittered initial mult maxI (n + 1) := by
  intro n
  induction n with
  | zero =>
      refine ⟨⟨hi0, him⟩, ?_⟩
      exact le_min (le_mul_of_one_le_right hi0 hm) him
  | succ k ih =>
      obtain ⟨⟨h0, hle⟩, _⟩ := ih
      have h0' : 0 ≤ unjittered initial mult maxI (k + 1) := by
        rw [unjittered]
        exact le_min (mul_nonneg h0 (le_trans zero_le_one hm)) (le_trans h0 hle)
      have hle' : unjittered initial mult maxI (k + 1) ≤ maxI := by
        rw [unjittered]
        exact min_le_right _ _
      refine ⟨⟨h0', hle'⟩, ?_⟩
      show unjittered initial mult maxI (k + 1)
        ≤ min (unjittered initial mult maxI (k + 1) * mult) maxI
      exact le_min (le_mul_of_one_le_right h0' hm) hle'

/-- Every sleep the traces retry loop performs uses a backoff in
`[0, 1.1 · maxI]`, provided the incoming backoff does and the jitter
source stays in `[0, 1]`. -/
theorem retryLoop_sleep_bound (upload : ℕ → Option ε) (cancelPre cancelSleep : ℕ → Bool)
    (rand : ℕ → ℚ) (index mr : ℕ) (mult maxI : ℚ) (hm : 0 ≤ mult) (hI : 0 ≤ maxI)
    (hr : ∀ k, 0 ≤ rand k ∧ rand k ≤ 1) :
    ∀ rem attempt b, 0 ≤ b → b ≤ 11 / 10 * maxI →
      ∀ d c, Ev.sleep d c ∈ (retryLoop upload cancelPre cancelSleep rand index mr mult maxI
          rem attempt b).2 → 0 ≤ d ∧ d ≤ 11 / 10 * maxI := by
  intro rem
  induction rem with
  | zero =>
      intro attempt b hb0 hb1 d c hmem
      rw [retryLoop] at hmem
      by_cases hcp : cancelPre attempt
      · simp [hcp] at hmem
      · rcases hu : upload attempt with _ | e <;> simp [hcp, hu] at hmem
  | succ r ih =>
      intro attempt b hb0 hb1 d c hmem
      have hband := nextBackoff_band b mult maxI (rand attempt) hb0 hm hI
        (hr attempt).1 (hr attempt).2
      have hx : min (b * mult) maxI ≤ maxI := min_le_right _ _
      have hx0 : 0 ≤ min (b * mult) maxI := le_min (mul_nonneg hb0 hm) hI
      have hnext0 : 0 ≤ nextBackoff b mult maxI (rand attempt) := by nlinarith
      have hnext1 : nextBackoff b mult maxI (rand attempt) ≤ 11 / 10 * maxI := by nlinarith
      rw [retryLoop] at hmem
      by_cases hcp : cancelPre attempt
      · simp [hcp] at hmem
      · rcases hu : upload attempt with _ | e
        · simp [hcp, hu] at hmem
        · by_cases hcs : cancelSleep attempt
          · simp [hcp, hu, hcs] at hmem
            rcases hmem with ⟨hd, _⟩
            exact hd ▸ ⟨hb0, hb1⟩
          · simp [hcp, hu, hcs] at hmem
            rcases hmem with ⟨hd, _⟩ | hrest
            · exact hd ▸ ⟨hb0, hb1⟩
            · exact ih (attempt + 1) (nextBackoff b mult maxI (rand attempt))
                hnext0 hnext1 d c hrest

/-! ## Claim theorems -/

/-- C1: the dispatcher joins every per-batch task before aggregating (so
the collected failure list is a permutation of the failures of all `n`
batches); it returns success iff no batch's upload (after its per-batch
retries) failed, for `N = 0` it returns success, and when batches failed
the returned error is the first failure collected from the unordered
result set. -/
theorem dispatch_barrier_aggregation (berr : ℕ → Option ε) (n : ℕ)
    (collected : List (ℕ × ε)) (hperm : collected.Perm (collectFailures berr n)) :
    (dispatchFirstError collected = none ↔ ∀ i < n, berr i = none) ∧
    dispatchFirstError (collectFailures berr 0) = none ∧
    (∀ p l, collected = p :: l → dispatchFirstError collected = some p.2) := by
  have hnil : dispatchFirstError collected = none ↔ collected = [] := by
    cases collected <;> simp [dispatchFirstError]
  have hiff : collected = [] ↔ collectFailures berr n = [] := by
    constructor
    · intro h
      rw [h] at hperm
      exact hperm.symm.eq_nil
    · intro h
      rw [h] at hperm
      exact hperm.eq_nil
  have hcf : collectFailures berr n = [] ↔ ∀ i < n, berr i = none := by
    simp [collectFailures, List.filterMap_eq_nil_iff, List.mem_range]
  refine ⟨hnil.trans (hiff.trans hcf), rfl, ?_⟩
  intro p l h
  rw [h]
  rfl

/-- Witness for C1 at a concrete input: two batches, batch 1 failed. -/
theorem dispatch_barrier_aggregation_witness :
    (dispatchFirstError (collectFailures (fun i => if i = 1 then some 7 else none) 2) = none
        ↔ ∀ i < 2, (if i = 1 then some 7 else (none : Option ℕ)) = none) ∧
    dispatchFirstError (collectFailures (fun i => if i = 1 then some 7 else none) 0)
      = none ∧
    (∀ p l, collectFailures (fun i => if i = 1 then some 7 else none) 2 = p :: l →
      dispatchFirstError (collectFailures (fun i => if i = 1 then some 7 else none) 2)
        = some p.2) :=
  dispatch_barrier_aggregation (fun i => if i = 1 then some 7 else none) 2 _
    (List.Perm.refl _)

/-- C2: with retry enabled, a non-negative configured `maxRetries`, an
uploader failing on every attempt and a cancellation signal that is never
set, `uploadBatchWithRetry` makes exactly `maxRetries + 1` attempts,
sleeps only `maxRetries` times (never after the final attempt), and
returns the exhaustion error carrying the batch index, the attempt count
`maxRetries + 1` and the last attempt's underlying error; moreover for
every uploader and cancellation behaviour the attempt count never exceeds
`maxRetries + 1`. -/
theorem retry_exhaustion (parseDur : String → Option ℚ) (c : BatchRetryConfig)
    (errAt : ℕ → ε) (cancelPre cancelSleep : ℕ → Bool) (rand : ℕ → ℚ) (index : ℕ)
    (hen : c.enabled = true) (hmr : 0 ≤ c.maxRetries)
    (hcp : ∀ k, cancelPre k = false) (hcs : ∀ k, cancelSleep k = false) :
    (uploadBatchWithRetry parseDur c (fun k => some (errAt k)) cancelPre cancelSleep
        rand index).1
      = .maxRetriesExceeded index (c.maxRetries.toNat + 1) (errAt c.maxRetries.toNat) ∧
    countUploads (uploadBatchWithRetry parseDur c (fun k => some (errAt k)) cancelPre
        cancelSleep rand index).2 = c.maxRetries.toNat + 1 ∧
    countSleeps (uploadBatchWithRetry parseDur c (fun k => some (errAt k)) cancelPre
        cancelSleep rand index).2 = c.maxRetries.toNat ∧
    (∀ (upload : ℕ → Option ε) (cancelPre' cancelSleep' : ℕ → Bool) (rand' : ℕ → ℚ),
      countUploads (uploadBatchWithRetry parseDur c upload cancelPre' cancelSleep'
        rand' index).2 ≤ c.maxRetries.toNat + 1) := by
  have hemr : effectiveMaxRetries c = c.maxRetries.toNat := by
    rw [effectiveMaxRetries, if_neg (not_lt.mpr hmr)]
  obtain ⟨h1, h2, h3, _⟩ := retryLoop_always_fails errAt cancelPre cancelSleep rand index
    (effectiveMaxRetries c) (effectiveMultiplier c) (GetMaxInterval parseDur c)
    hcp hcs (effectiveMaxRetries c) 0 (GetInitialInterval parseDur c)
  rw [Nat.zero_add] at h1
  refine ⟨?_, ?_, ?_, ?_⟩
  · rw [uploadBatchWithRetry, if_neg (by simp [hen])]
    rw [h1, hemr]
  · rw [uploadBatchWithRetry, if_neg (by simp [hen])]
    rw [h2, hemr]
  · rw [uploadBatchWithRetry, if_neg (by simp [hen])]
    rw [h3, hemr]
  · intro upload cancelPre' cancelSleep' rand'
    rw [uploadBatchWithRetry, if_neg (by simp [hen])]
    rw [hemr]
    exact retryLoop_upload_bound upload cancelPre' cancelSleep' rand' index
      c.maxRetries.toNat (effectiveMultiplier c) (GetMaxInterval parseDur c)
      c.maxRetries.toNat 0 (GetInitialInterval parseDur c)

/-- Witness for C2 at the default configuration (`maxRetries = 3`). -/
theorem retry_exhaustion_witness :
    (uploadBatchWithRetry (fun _ => none) NewDefaultBatchRetryConfig
        (fun k => some k) (fun _ => false) (fun _ => false) (fun _ => 0) 5).1
      = .maxRetriesExceeded 5 4 3 ∧
    countUploads (uploadBatchWithRetry (fun _ => none) NewDefaultBatchRetryConfig
        (fun k => some k) (fun _ => false) (fun _ => false) (fun _ => 0) 5).2 = 4 ∧
    countSleeps (uploadBatchWithRetry (fun _ => none) NewDefaultBatchRetryConfig
        (fun k => some k) (fun _ => false) (fun _ => false) (fun _ => 0) 5).2 = 3 ∧
    (∀ (upload : ℕ → Option ℕ) (cancelPre' cancelSleep' : ℕ → Bool) (rand' : ℕ → ℚ),
      countUploads (uploadBatchWithRetry (fun _ => none) NewDefaultBatchRetryConfig upload
        cancelPre' cancelSleep' rand' 5).2 ≤ 4) :=
  retry_exhaustion (fun _ => none) NewDefaultBatchRetryConfig (fun k : ℕ => k)
    (fun _ => false) (fun _ => false) (fun _ => 0) 5 rfl (by decide)
    (fun _ => rfl) (fun _ => rfl)

/-- C5: the cancellation signal is polled before issuing each upload and
during the inter-attempt sleep; observed at the pre-attempt poll the loop
returns `cancelled` at once with no attempt, no sleep and no telemetry;
observed during the sleep it returns `cancelled` with the sleep recorded
as interrupted and no further attempts. -/
theorem cancellation_immediate (upload : ℕ → Option ε)
    (cancelPre cancelSleep cancelPre' cancelSleep' : ℕ → Bool)
    (rand : ℕ → ℚ) (index mr rem attempt : ℕ) (mult maxI b : ℚ) (e : ε)
    (h1 : cancelPre attempt = true)
    (h2 : cancelPre' attempt = false) (hu : upload attempt = some e)
    (h3 : cancelSleep' attempt = true) :
    retryLoop upload cancelPre cancelSleep rand index mr mult maxI rem attempt b
      = (.cancelled, []) ∧
    retryLoop upload cancelPre' cancelSleep' rand index mr mult maxI (rem + 1) attempt b
      = (.cancelled, [.uploadAttempt attempt, .sleep b false]) := by
  constructor
  · rw [retryLoop]
    simp [h1]
  · rw [retryLoop]
    simp [h2, hu, h3]

/-- Witness for C5 at concrete inputs: pre-poll cancellation at attempt 0,
and sleep cancellation after a failed attempt 0. -/
theorem cancellation_immediate_witness :
    retryLoop (fun _ => (some 9 : Option ℕ)) (fun _ => true) (fun _ => true)
        (fun _ => 0) 1 2 2 5000000000 1 0 100000000
      = (.cancelled, []) ∧
    retryLoop (fun _ => (some 9 : Option ℕ)) (fun _ => false) (fun _ => true)
        (fun _ => 0) 1 2 2 5000000000 (1 + 1) 0 100000000
      = (.cancelled, [.uploadAttempt 0, .sleep 100000000 false]) :=
  cancellation_immediate (fun _ => some 9) (fun _ => true) (fun _ => true)
    (fun _ => false) (fun _ => true) (fun _ => 0) 1 2 1 0 2 5000000000 100000000 9
    rfl rfl rfl rfl

/-- C6: with batch retry disabled, exactly one upload attempt is made and
no sleep ever happens; a failing attempt yields the `UploadFailed`-style
wrap carrying the batch index and the cause, a succeeding attempt yields
success. -/
theorem retry_disabled_single_attempt (parseDur : String → Option ℚ)
    (c : BatchRetryConfig) (upload upload' : ℕ → Option ε)
    (cancelPre cancelSleep : ℕ → Bool) (rand : ℕ → ℚ) (index : ℕ) (e : ε)
    (hd : c.enabled = false) (hu : upload 0 = some e) (hu' : upload' 0 = none) :
    uploadBatchWithRetry parseDur c upload cancelPre cancelSleep rand index
      = (.uploadFailed index e,
          [.uploadAttempt 0, .batchExportError errorReasonUploadFailed false none]) ∧
    uploadBatchWithRetry parseDur c upload' cancelPre cancelSleep rand index
      = (.success, [.uploadAttempt 0, .batchExported false none]) ∧
    countUploads (uploadBatchWithRetry parseDur c upload cancelPre cancelSleep
      rand index).2 = 1 ∧
    countSleeps (uploadBatchWithRetry parseDur c upload cancelPre cancelSleep
      rand index).2 = 0 := by
  have heq : uploadBatchWithRetry parseDur c upload cancelPre cancelSleep rand index
      = (.uploadFailed index e,
          [.uploadAttempt 0, .batchExportError errorReasonUploadFailed false none]) := by
    rw [uploadBatchWithRetry, if_pos hd, hu]
  refine ⟨heq, ?_, ?_, ?_⟩
  · rw [uploadBatchWithRetry, if_pos hd, hu']
  · rw [heq]
    simp
  · rw [heq]
    simp

/-- Witness for C6 with a failing and a succeeding single attempt. -/
theorem retry_disabled_single_attempt_witness :
    uploadBatchWithRetry (fun _ => none)
        { NewDefaultBatchRetryConfig with enabled := false }
        (fun _ => (some 3 : Option ℕ)) (fun _ => false) (fun _ => false) (fun _ => 0) 2
      = (.uploadFailed 2 3,
          [.uploadAttempt 0, .batchExportError errorReasonUploadFailed false none]) ∧
    uploadBatchWithRetry (fun _ => none)
        { NewDefaultBatchRetryConfig with enabled := false }
        (fun _ => (none : Option ℕ)) (fun _ => false) (fun _ => false) (fun _ => 0) 2
      = (.success, [.uploadAttempt 0, .batchExported false none]) ∧
    countUploads (uploadBatchWithRetry (fun _ => none)
      { NewDefaultBatchRetryConfig with enabled := false }
      (fun _ => (some 3 : Option ℕ)) (fun _ => false) (fun _ => false)
      (fun _ => 0) 2).2 = 1 ∧
    countSleeps (uploadBatchWithRetry (fun _ => none)
      { NewDefaultBatchRetryConfig with enabled := false }
      (fun _ => (some 3 : Option ℕ)) (fun _ => false) (fun _ => false)
      (fun _ => 0) 2).2 = 0 :=
  retry_disabled_single_attempt (fun _ => none)
    { NewDefaultBatchRetryConfig with enabled := false }
    (fun _ => some 3) (fun _ => none) (fun _ => false) (fun _ => false) (fun _ => 0)
    2 3 rfl rfl rfl

/-- C7: malformed retry configuration never fails the call, and each
malformed field falls back to its documented default independently of the
others (the three configurations below are unrelated): an empty or
unparsable `initialInterval` behaves as 100ms, an empty or unparsable
`maxInterval` behaves as 5s, and a multiplier ≤ 0 behaves as 2.0,
observable as exact doubling of the un-jittered backoff below the cap
(jitter-neutral random source 1/2). -/
theorem config_defaults (parseDur : String → Option ℚ) (c1 c2 c3 : BatchRetryConfig)
    (h1 : c1.initialInterval = "" ∨ parseDur c1.initialInterval = none)
    (h2 : c2.maxInterval = "" ∨ parseDur c2.maxInterval = none)
    (h3 : c3.multiplier ≤ 0) :
    GetInitialInterval parseDur c1 = 100000000 ∧
    GetMaxInterval parseDur c2 = 5000000000 ∧
    effectiveMultiplier c3 = 2 ∧
    (∀ b maxI : ℚ, 2 * b ≤ maxI →
      nextBackoff b (effectiveMultiplier c3) maxI (1 / 2) = 2 * b) := by
  have hm : effectiveMultiplier c3 = 2 := by
    rw [effectiveMultiplier, if_pos h3]
  refine ⟨?_, ?_, hm, ?_⟩
  · rcases h1 with h | h
    · simp [GetInitialInterval, h]
    · by_cases he : c1.initialInterval = ""
      · simp [GetInitialInterval, he]
      · simp [GetInitialInterval, he, h]
  · rcases h2 with h | h
    · simp [GetMaxInterval, h]
    · by_cases he : c2.maxInterval = ""
      · simp [GetMaxInterval, he]
      · simp [GetMaxInterval, he, h]
  · intro b maxI hle
    have hnot : ¬ maxI < b * 2 := not_lt.mpr (by linarith)
    rw [hm]
    simp only [nextBackoff, if_neg hnot]
    ring

/-- Witness for C7 at three independently malformed configurations, under
a parse oracle that accepts the documented "5s" and rejects everything
else: an unparsable `initialInterval` alone (other fields well-formed), an
empty `maxInterval` alone, and the spec scenario `multiplier = 0` alone
with parsable intervals. -/
theorem config_defaults_witness :
    GetInitialInterval (fun s => if s = "5s" then some 5000000000 else none)
        { NewDefaultBatchRetryConfig with initialInterval := "garbage" } = 100000000 ∧
    GetMaxInterval (fun s => if s = "5s" then some 5000000000 else none)
        { NewDefaultBatchRetryConfig with maxInterval := "" } = 5000000000 ∧
    effectiveMultiplier { NewDefaultBatchRetryConfig with multiplier := 0 } = 2 ∧
    (∀ b maxI : ℚ, 2 * b ≤ maxI →
      nextBackoff b (effectiveMultiplier
        { NewDefaultBatchRetryConfig with multiplier := 0 }) maxI (1 / 2) = 2 * b) :=
  config_defaults (fun s => if s = "5s" then some 5000000000 else none)
    { NewDefaultBatchRetryConfig with initialInterval := "garbage" }
    { NewDefaultBatchRetryConfig with maxInterval := "" }
    { NewDefaultBatchRetryConfig with multiplier := 0 }
    (Or.inr (by simp)) (Or.inl rfl) (by norm_num)

/-- C3 (counterexample): the claim fails on the code as written.  The
backoff clamp is applied before the jitter, so with a jitter source above
1/2 (factor `2r - 1 > 0`) the effective backoff exceeds `maxInterval`
(here: previous 5s, multiplier 2, cap 5s, `rand = 1` gives 5.5s); the
un-jittered component is strictly decreasing for a configured multiplier
in (0,1) (here 1/2, which the code does not default away); and the
un-jittered component starts at `initialInterval`, which may exceed
`maxInterval` (here 6s > 5s). -/
theorem backoff_cap_counterexample :
    5000000000 < nextBackoff 5000000000 2 5000000000 1 ∧
    unjittered 100000000 (1 / 2) 5000000000 1
      < unjittered 100000000 (1 / 2) 5000000000 0 ∧
    5000000000 < unjittered 6000000000 2 5000000000 0 := by
  refine ⟨?_, ?_, ?_⟩
  · norm_num [nextBackoff]
  · norm_num [unjittered, min_def]
  · norm_num [unjittered]

/-- C3 (amended): provided `initialInterval ≤ maxInterval`, `multiplier ≥
1` and the jitter source stays in `[0, 1]`, the un-jittered backoff
component is monotonically non-decreasing and never exceeds
`maxInterval`, and every effective inter-attempt sleep of the retry loop
is non-negative and never exceeds `1.1 × maxInterval` (the clamp is
applied before the ±10% jitter, so the cap can be overshot by at most that
jitter). -/
theorem backoff_invariants (upload : ℕ → Option ε) (cancelPre cancelSleep : ℕ → Bool)
    (rand : ℕ → ℚ) (index mr : ℕ) (initial mult maxI : ℚ)
    (hi0 : 0 ≤ initial) (him : initial ≤ maxI) (hm : 1 ≤ mult)
    (hr : ∀ k, 0 ≤ rand k ∧ rand k ≤ 1) :
    (∀ n, unjittered initial mult maxI n ≤ unjittered initial mult maxI (n + 1)) ∧
    (∀ n, unjittered initial mult maxI n ≤ maxI) ∧
    (∀ rem attempt d c,
      Ev.sleep d c ∈ (retryLoop upload cancelPre cancelSleep rand index mr mult maxI
          rem attempt initial).2 → 0 ≤ d ∧ d ≤ 11 / 10 * maxI) := by
  have hI : 0 ≤ maxI := le_trans hi0 him
  refine ⟨fun n => (unjittered_bounds_mono initial mult maxI hi0 him hm n).2,
    fun n => (unjittered_bounds_mono initial mult maxI hi0 him hm n).1.2, ?_⟩
  intro rem attempt d c hmem
  exact retryLoop_sleep_bound upload cancelPre cancelSleep rand index mr mult maxI
    (le_trans zero_le_one hm) hI hr rem attempt initial hi0
    (le_trans him (by linarith)) d c hmem

/-- Witness for the amended C3 at the documented defaults
(100ms initial, 5s cap, multiplier 2, jitter source 1/2). -/
theorem backoff_invariants_witness :
    (∀ n, unjittered 100000000 2 5000000000 n
      ≤ unjittered 100000000 2 5000000000 (n + 1)) ∧
    (∀ n, unjittered 100000000 2 5000000000 n ≤ 5000000000) ∧
    (∀ rem attempt d c,
      Ev.sleep d c ∈ (retryLoop (fun _ => (some 0 : Option ℕ)) (fun _ => false)
          (fun _ => false) (fun _ => 1 / 2) 0 3 2 5000000000 rem attempt 100000000).2 →
        0 ≤ d ∧ d ≤ 11 / 10 * 5000000000) :=
  backoff_invariants (fun _ => some 0) (fun _ => false) (fun _ => false) (fun _ => 1 / 2)
    0 3 100000000 2 5000000000 (by norm_num) (by norm_num) (by norm_num)
    (fun _ => by norm_num)

/-- C4: one backoff update returns `min (previous × multiplier,
maxInterval)` perturbed by the ±10% multiplicative jitter: for a jitter
source in `[0, 1]` (every wall-clock bit pattern through the year 2116)
the result lies in `[0.9 · x, 1.1 · x]` for `x = min (previous ×
multiplier) maxInterval` and is never negative. -/
theorem jitter_band (b mult maxI r : ℚ) (hb : 0 ≤ b) (hm : 0 ≤ mult) (hI : 0 ≤ maxI)
    (hr0 : 0 ≤ r) (hr1 : r ≤ 1) :
    9 / 10 * min (b * mult) maxI ≤ nextBackoff b mult maxI r ∧
    nextBackoff b mult maxI r ≤ 11 / 10 * min (b * mult) maxI ∧
    0 ≤ nextBackoff b mult maxI r := by
  obtain ⟨h1, h2⟩ := nextBackoff_band b mult maxI r hb hm hI hr0 hr1
  have hx0 : 0 ≤ min (b * mult) maxI := le_min (mul_nonneg hb hm) hI
  exact ⟨h1, h2, le_trans (by nlinarith) h1⟩

/-- Witness for C4 at 100ms previous backoff, multiplier 2, 5s cap and
jitter source 3/4. -/
theorem jitter_band_witness :
    9 / 10 * min ((100000000 : ℚ) * 2) 5000000000
      ≤ nextBackoff 100000000 2 5000000000 (3 / 4) ∧
    nextBackoff 100000000 2 5000000000 (3 / 4)
      ≤ 11 / 10 * min ((100000000 : ℚ) * 2) 5000000000 ∧
    0 ≤ nextBackoff 100000000 2 5000000000 (3 / 4) :=
  jitter_band 100000000 2 5000000000 (3 / 4) (by norm_num) (by norm_num) (by norm_num)
    (by norm_num) (by norm_num)

/-- C8 (counterexample): the claim fails on the code.  The traces
exporter's `uploadBatchWithRetry` emits no batch telemetry event when the
run is cancelled (here: cancellation observed before attempt 0), and the
logs exporter's `uploadBatchWithRetry` emits no batch telemetry on any
path (here: a first-attempt success) — both are return paths the claim
says emit exactly one event. -/
theorem terminal_telemetry_counterexample :
    (uploadBatchWithRetry (fun _ => none) NewDefaultBatchRetryConfig
        (fun _ => (some 0 : Option ℕ)) (fun _ => true) (fun _ => false) (fun _ => 0) 0).1
      = .cancelled ∧
    countTelemetry (uploadBatchWithRetry (fun _ => none) NewDefaultBatchRetryConfig
        (fun _ => (some 0 : Option ℕ)) (fun _ => true) (fun _ => false)
        (fun _ => 0) 0).2 = 0 ∧
    (logsUploadBatchWithRetry (fun _ => none) NewDefaultBatchRetryConfig
        (fun _ => (none : Option ℕ)) (fun _ => false) (fun _ => false) (fun _ => 0) 0).1
      = .success ∧
    countTelemetry (logsUploadBatchWithRetry (fun _ => none) NewDefaultBatchRetryConfig
        (fun _ => (none : Option ℕ)) (fun _ => false) (fun _ => false)
        (fun _ => 0) 0).2 = 0 := by
  refine ⟨?_, ?_, ?_, ?_⟩ <;> rfl

/-- C8 (amended): the traces exporter's `uploadBatchWithRetry` emits
exactly one terminal batch telemetry event on every non-cancellation
return path (success, exhaustion, retry disabled) and none on a
cancellation return; the logs exporter's variant emits no batch telemetry
event on any path. -/
theorem terminal_telemetry [DecidableEq ε] (parseDur : String → Option ℚ)
    (c : BatchRetryConfig) (upload : ℕ → Option ε) (cancelPre cancelSleep : ℕ → Bool)
    (rand : ℕ → ℚ) (index : ℕ) :
    countTelemetry (uploadBatchWithRetry parseDur c upload cancelPre cancelSleep
        rand index).2
      = (if (uploadBatchWithRetry parseDur c upload cancelPre cancelSleep rand index).1
          = BatchResult.cancelled then 0 else 1) ∧
    countTelemetry (logsUploadBatchWithRetry parseDur c upload cancelPre cancelSleep
      rand index).2 = 0 := by
  cases hen : c.enabled with
  | false =>
      rcases hu : upload 0 with _ | e <;>
        simp [uploadBatchWithRetry, logsUploadBatchWithRetry, hen, hu]
  | true =>
      have e1 : uploadBatchWithRetry parseDur c upload cancelPre cancelSleep rand index
          = retryLoop upload cancelPre cancelSleep rand index (effectiveMaxRetries c)
              (effectiveMultiplier c) (GetMaxInterval parseDur c) (effectiveMaxRetries c)
              0 (GetInitialInterval parseDur c) := by
        rw [uploadBatchWithRetry, if_neg (by simp [hen])]
      have e2 : logsUploadBatchWithRetry parseDur c upload cancelPre cancelSleep rand index
          = logsRetryLoop upload cancelPre cancelSleep rand index (effectiveMaxRetries c)
              (effectiveMultiplier c) (GetMaxInterval parseDur c) (effectiveMaxRetries c)
              0 (GetInitialInterval parseDur c) := by
        rw [logsUploadBatchWithRetry, if_neg (by simp [hen])]
      rw [e1, e2]
      obtain ⟨ht0, ht1⟩ := retryLoop_telemetry upload cancelPre cancelSleep rand index
        (effectiveMaxRetries c) (effectiveMultiplier c) (GetMaxInterval parseDur c)
        (effectiveMaxRetries c) 0 (GetInitialInterval parseDur c)
      refine ⟨?_, logsRetryLoop_telemetry upload cancelPre cancelSleep rand index
        (effectiveMaxRetries c) (effectiveMultiplier c) (GetMaxInterval parseDur c)
        (effectiveMaxRetries c) 0 (GetInitialInterval parseDur c)⟩
      by_cases hres : (retryLoop upload cancelPre cancelSleep rand index
          (effectiveMaxRetries c) (effectiveMultiplier c) (GetMaxInterval parseDur c)
          (effectiveMaxRetries c) 0 (GetInitialInterval parseDur c)).1
          = BatchResult.cancelled
      · rw [if_pos hres]
        exact ht0 hres
      · rw [if_neg hres]
        exact ht1 hres

/-- Witness for the amended C8: default configuration, uploader failing
once then succeeding, no cancellation. -/
theorem terminal_telemetry_witness :
    countTelemetry (uploadBatchWithRetry (fun _ => none) NewDefaultBatchRetryConfig
        (fun k => if k = 0 then (some 1 : Option ℕ) else none) (fun _ => false)
        (fun _ => false) (fun _ => 0) 0).2
      = (if (uploadBatchWithRetry (fun _ => none) NewDefaultBatchRetryConfig
          (fun k => if k = 0 then (some 1 : Option ℕ) else none) (fun _ => false)
          (fun _ => false) (fun _ => 0) 0).1 = BatchResult.cancelled then 0 else 1) ∧
    countTelemetry (logsUploadBatchWithRetry (fun _ => none) NewDefaultBatchRetryConfig
      (fun k => if k = 0 then (some 1 : Option ℕ) else none) (fun _ => false)
      (fun _ => false) (fun _ => 0) 0).2 = 0 :=
  terminal_telemetry (fun _ => none) NewDefaultBatchRetryConfig
    (fun k => if k = 0 then some 1 else none) (fun _ => false) (fun _ => false)
    (fun _ => 0) 0

/-- C9: releasing the batch set is always safe: `Close` on a nil receiver
or nil handle is a no-op that calls no FFI free, `Close` is idempotent
(the second close changes nothing and frees nothing), and `pushTraces`
marks the batch set released on every exit path on which it was
allocated. -/
theorem close_always_safe (b : BatchesState) (marshal : Except Unit ℕ)
    (handle : Option ℕ) (ffi : Except EncodeErr ℕ)
    (dispatchErr : Option (BatchResult ℕ)) :
    closeBatches none = (none, false) ∧
    closeBatches (some none) = (some none, false) ∧
    closeBatches (closeBatches b).1 = ((closeBatches b).1, false) ∧
    ((pushTraces marshal handle ffi dispatchErr).allocated = true →
      (pushTraces marshal handle ffi dispatchErr).closed = true) := by
  refine ⟨rfl, rfl, ?_, ?_⟩
  · rcases b with _ | (_ | h) <;> rfl
  · intro hall
    rcases marshal with e | len
    · simp [pushTraces] at hall
    · rcases henc : EncodeAndCompressSpans handle len ffi with er | bid
      · simp [pushTraces, henc] at hall
      · rcases dispatchErr with _ | de <;> simp [pushTraces, henc]

/-- Witness for C9 on an open batch set and a successful export call. -/
theorem close_always_safe_witness :
    closeBatches none = (none, false) ∧
    closeBatches (some none) = (some none, false) ∧
    closeBatches (closeBatches (some (some 4))).1
      = ((closeBatches (some (some 4))).1, false) ∧
    ((pushTraces (.ok 10) (some 1) (.ok 2) none).allocated = true →
      (pushTraces (.ok 10) (some 1) (.ok 2) none).closed = true) :=
  close_always_safe (some (some 4)) (.ok 10) (some 1) (.ok 2) none

/-- C10: encoding with zero-length input or on a closed client (nil
handle) always returns an error and never a batch set (both the spans and
the logs entry point); consequently an export call whose payload marshals
to zero bytes never reaches the dispatcher, while an `N = 0` batch set is
handled by the dispatcher as success. -/
theorem empty_or_closed_encode_fails (handle : Option ℕ) (dataLen : ℕ)
    (ffi : Except EncodeErr ℕ) (dispatchErr : Option (BatchResult ℕ))
    (h : dataLen = 0 ∨ handle = none) :
    (∃ e, EncodeAndCompressSpans handle dataLen ffi = .error e) ∧
    (∃ e, EncodeAndCompressLogs handle dataLen ffi = .error e) ∧
    (pushTraces (.ok 0) handle ffi dispatchErr).dispatched = false ∧
    (∀ berr : ℕ → Option ℕ, dispatchFirstError (collectFailures berr 0) = none) := by
  refine ⟨?_, ?_, ?_, fun berr => rfl⟩
  · rcases handle with _ | v
    · exact ⟨.clientClosed, rfl⟩
    · rcases h with h0 | hn
      · exact ⟨.emptyData, by simp [EncodeAndCompressSpans, h0]⟩
      · cases hn
  · rcases handle with _ | v
    · exact ⟨.clientClosed, rfl⟩
    · rcases h with h0 | hn
      · exact ⟨.emptyData, by simp [EncodeAndCompressLogs, h0]⟩
      · cases hn
  · rcases handle with _ | v <;> simp [pushTraces, EncodeAndCompressSpans]

/-- Witness for C10 on an open client with zero-length payload. -/
theorem empty_or_closed_encode_fails_witness :
    (∃ e, EncodeAndCompressSpans (some 1) 0 (.ok 2) = .error e) ∧
    (∃ e, EncodeAndCompressLogs (some 1) 0 (.ok 2) = .error e) ∧
    (pushTraces (.ok 0) (some 1) (.ok 2) none).dispatched = false ∧
    (∀ berr : ℕ → Option ℕ, dispatchFirstError (collectFailures berr 0) = none) :=
  empty_or_closed_encode_fails (some 1) 0 (.ok 2) none (Or.inl rfl)

end GigWarm
